import Mathlib

/-!
Verification development for the `blank-app` repository (two Streamlit
dashboards: `dashboard_wind.py` fetching Visual Crossing hourly weather, and
`streamlit_app.py` fetching NASA POWER hourly data).

The Python code is shallowly embedded: the HTTP layer is abstracted as an
oracle mapping the request window to an outcome, numeric JSON fields are
rationals, pandas DataFrames are (column list, row list) pairs, and Streamlit
message calls (`st.warning` / `st.error`) are collected into a message list.
Components that the accompanying design document describes but that are absent
from the source (the range resolver, the cache merger, `deg_to_cardinal`) are
modelled from the document and marked as such in their doc comments.
-/

/- ================= dashboard_wind.py : data model ================= -/

/-- One entry of a day's `hours` array in the Visual Crossing JSON response.
`datetime` is accessed as `hour['datetime']` in the source (required: a missing
key would raise), every metric is read with `hour.get(...)` (optional, `None`
when absent); numeric values are modelled as rationals. -/
structure Hour where
  datetime : String
  windspeed : Option ℚ
  winddir : Option ℚ
  temp : Option ℚ
  pressure : Option ℚ
  humidity : Option ℚ
  windgust : Option ℚ
  cloudcover : Option ℚ
  deriving DecidableEq

/-- One entry of the `days` array: `day['datetime']` (required) and
`day.get('hours', [])`. -/
structure Day where
  datetime : String
  hours : List Hour
  deriving DecidableEq

/-- A parsed Visual Crossing response body; `days` models
`data.get('days', [])`, so an absent `days` key is the empty list. -/
structure ApiData where
  days : List Day
  deriving DecidableEq

/-- One flattened hourly record after the `rename` step of
`get_wind_data_real`: the eight keys built in the per-hour `record` dict,
under their renamed column names. -/
structure Record where
  datetime : String
  wind_speed_kmh : Option ℚ
  wind_direction_deg : Option ℚ
  temperature_celsius : Option ℚ
  pressure_hPa : Option ℚ
  humidity_percent : Option ℚ
  wind_gust_kmh : Option ℚ
  cloud_cover_percent : Option ℚ
  deriving DecidableEq

/-- A pandas DataFrame, modelled as its column list plus its rows.
`pd.DataFrame()` is `⟨[], []⟩`. -/
structure DataFrame where
  columns : List String
  rows : List Record
  deriving DecidableEq

/-- The empty DataFrame `pd.DataFrame()`. -/
def emptyDF : DataFrame := ⟨[], []⟩

/-- A Streamlit user-visible message: `st.warning` or `st.error`. -/
inductive Message where
  | warningMsg (text : String)
  | errorMsg (text : String)
  deriving DecidableEq

/-- Outcome of the single `requests.get(url)` call in `get_wind_data_real`,
as observed by the surrounding `try` block:
* `ok data`: 2xx status and a JSON body that parsed to `data`;
* `httpError body`: `raise_for_status()` raised `requests.exceptions.HTTPError`
  whose `err.response.text` is `body`;
* `raisedOther msg`: any other exception inside the `try` (transport failure,
  JSON decode error, ...), caught by the `except Exception` clause. -/
inductive HttpOutcome where
  | ok (data : ApiData)
  | httpError (body : String)
  | raisedOther (msg : String)
  deriving DecidableEq

/-- A Python return value that may be `None` (`obtener_datos_nasa` returns
`None` on its handled failure paths; `get_wind_data_real` never does). -/
inductive PyResult (α : Type) where
  | none
  | value (a : α)
  deriving DecidableEq

/- ================= dashboard_wind.py : get_wind_data_real ================= -/

/-- The double loop `for day in days_data: for hour in hours_data:` of
`get_wind_data_real`: one flat record per hour entry, its timestamp the day
date and the hour-of-day string joined by a space, metrics copied through the
rename map (`windspeed ↦ wind_speed_kmh`, `winddir ↦ wind_direction_deg`,
`temp ↦ temperature_celsius`, `pressure ↦ pressure_hPa`,
`humidity ↦ humidity_percent`, `windgust ↦ wind_gust_kmh`,
`cloudcover ↦ cloud_cover_percent`). -/
def flattenHours (data : ApiData) : List Record :=
  data.days.flatMap fun day =>
    day.hours.map fun hour =>
      { datetime := day.datetime ++ " " ++ hour.datetime
        wind_speed_kmh := hour.windspeed
        wind_direction_deg := hour.winddir
        temperature_celsius := hour.temp
        pressure_hPa := hour.pressure
        humidity_percent := hour.humidity
        wind_gust_kmh := hour.windgust
        cloud_cover_percent := hour.cloudcover }

/-- The predicate kept by `dropna(subset=['wind_speed_kmh',
'wind_direction_deg'])`: both wind speed and wind direction present. -/
def keepRow (r : Record) : Bool :=
  r.wind_speed_kmh.isSome && r.wind_direction_deg.isSome

/-- The `columns_of_interest` list of `get_wind_data_real`, which the
`reindex` call makes the exact column set of the returned DataFrame. -/
def columns_of_interest : List String :=
  ["datetime", "wind_speed_kmh", "wind_direction_deg", "temperature_celsius",
   "pressure_hPa", "humidity_percent", "wind_gust_kmh", "cloud_cover_percent"]

/-- The observable behaviour of one `get_wind_data_real` call: the request
windows sent upstream (as (start date, end date) pairs, dates as day numbers),
the Streamlit messages shown, and the returned value. -/
structure FetchTrace where
  requests : List (Int × Int)
  messages : List Message
  result : PyResult DataFrame
  deriving DecidableEq

/-- Shallow embedding of `get_wind_data_real` (`dashboard_wind.py`, lines
13-107). Dates are day numbers; `respond` is the HTTP oracle for the single
`requests.get` the function performs on the URL built from `start_str` and
`end_str`. Branches, in source order:
* `HTTPError` → `st.error("Error de API: ...")`, return `pd.DataFrame()`;
* any other exception inside the `try` → `st.error("Ocurrió un error
  inesperado: ...")`, return `pd.DataFrame()`;
* empty (or absent) `days` → `st.warning(...)`, return `pd.DataFrame()`;
* `days` non-empty but no hour entries at all → `all_hourly_data == []`, so
  `pd.DataFrame([])` has no columns and `df['datetime']` raises `KeyError`,
  caught by `except Exception` → `st.error`, return `pd.DataFrame()`;
* otherwise → no message, DataFrame with columns `columns_of_interest` and
  the flattened rows surviving the `dropna` on speed and direction.
String parsing by `pd.to_datetime` is not modelled (timestamps stay strings);
every branch returns a DataFrame, never `None`. -/
def get_wind_data_real (start_date end_date : Int)
    (respond : Int → Int → HttpOutcome) : FetchTrace :=
  match respond start_date end_date with
  | .httpError body =>
      { requests := [(start_date, end_date)]
        messages := [.errorMsg
          ("Error de API: Verifica la clave o la ubicación. Mensaje: " ++ body)]
        result := .value emptyDF }
  | .raisedOther msg =>
      { requests := [(start_date, end_date)]
        messages := [.errorMsg ("Ocurrió un error inesperado: " ++ msg)]
        result := .value emptyDF }
  | .ok data =>
      if data.days = [] then
        { requests := [(start_date, end_date)]
          messages := [.warningMsg
            ("La API no devolvió datos para esta ubicación o rango. " ++
             "Revisa la ubicación o el periodo.")]
          result := .value emptyDF }
      else if flattenHours data = [] then
        { requests := [(start_date, end_date)]
          messages := [.errorMsg "Ocurrió un error inesperado: 'datetime'"]
          result := .value emptyDF }
      else
        { requests := [(start_date, end_date)]
          messages := []
          result := .value
            { columns := columns_of_interest
              rows := (flattenHours data).filter keepRow } }

/- ================= dashboard_wind.py : button handler ================= -/

/-- What the `if fetch_button:` block (`dashboard_wind.py`, lines 135-152)
does before any network activity. -/
inductive DashAction where
  | warnNoLocation
  | errorInvalidRange
  | proceedToFetch
  deriving DecidableEq

/-- Shallow embedding of the input validation in the `fetch_button` handler:
`if not location: st.warning(...) elif start_date > end_date: st.error(...)
else: <secrets lookup and fetch>`. Only `proceedToFetch` can lead to a call
of `get_wind_data_real`. -/
def fetch_button_handler (location : String) (start_date end_date : Int) :
    DashAction :=
  if location = "" then .warnNoLocation
  else if start_date > end_date then .errorInvalidRange
  else .proceedToFetch

/- ================= streamlit_app.py : obtener_datos_nasa ================= -/

/-- The public attributes of the `pandas.io.json` module (pandas 2.x:
`__init__.py` exposes exactly its `__all__`); earlier pandas versions exposed
`dumps`, `loads`, `read_json`, `to_json` and, transitionally,
`json_normalize`. No pandas release has ever provided `build_url_query`. -/
def pandas_io_json_attrs : List String :=
  ["dumps", "loads", "read_json", "to_json", "ujson_dumps", "ujson_loads",
   "build_table_schema", "json_normalize"]

/-- Whether the attribute lookup `pd.io.json.build_url_query` on line 61 of
`streamlit_app.py` succeeds. It does not: the name is absent, so the lookup
raises `AttributeError`. -/
def build_url_query_exists : Bool :=
  pandas_io_json_attrs.contains "build_url_query"

/-- A parsed NASA POWER response body: `data['properties']['parameter']`,
`Option.none` when either key is absent (which raises `KeyError` in the
source, caught by the dedicated `except KeyError` clause). The parameter
table maps each variable name to its (hour-key, value) series. -/
structure NasaJson where
  properties_parameter : Option (List (String × List (String × ℚ)))
  deriving DecidableEq

/-- Outcome of the `requests.get(url_final)` call in `obtener_datos_nasa`:
a transport failure or non-2xx status (both land in the
`except requests.exceptions.RequestException` clause) or a parsed body. -/
inductive NasaHttp where
  | requestException (msg : String)
  | ok (body : NasaJson)
  deriving DecidableEq

/-- A NASA POWER result frame: column per variable, indexed by hour keys. -/
structure NasaFrame where
  parameter_series : List (String × List (String × ℚ))
  deriving DecidableEq

/-- Outcome of calling a Python function: either an uncaught exception
propagates out of it, or it returns a value. -/
inductive PyOutcome (α : Type) where
  | raised (exc : String)
  | returned (a : α)
  deriving DecidableEq

/-- Shallow embedding of `obtener_datos_nasa` (`streamlit_app.py`, lines
44-87). The URL is built on line 61, before the `try` block, as
`f"...?" + pd.io.json.build_url_query(params)`; since `pandas.io.json` has no
attribute `build_url_query`, that line raises `AttributeError` and nothing
after it runs — the guard keeps the embedding faithful to the attribute
lookup rather than hard-coding the crash. Inside the `try` (dead code):
`RequestException` → `st.error` + `st.info`, return `None`; missing
`properties`/`parameter` keys → `KeyError` → `st.error`, return `None`;
otherwise the parameter table becomes the returned frame (the
`pd.to_datetime` index conversion is not modelled). -/
def obtener_datos_nasa (lat lon : ℚ) (start_s end_s : String)
    (variable_list : List String) (respond : NasaHttp) :
    PyOutcome (List Message × PyResult NasaFrame) :=
  if build_url_query_exists then
    match respond with
    | .requestException msg =>
        .returned
          ([.errorMsg ("Error en la solicitud a la API de NASA POWER: " ++ msg)],
           .none)
    | .ok body =>
        match body.properties_parameter with
        | Option.none =>
            .returned
              ([.errorMsg ("Error al procesar los datos: La API no devolvió " ++
                 "el formato esperado. Revise las variables solicitadas.")],
               .none)
        | Option.some table =>
            .returned ([], .value ⟨table⟩)
  else
    .raised ("AttributeError: module 'pandas.io.json' has no attribute " ++
      "'build_url_query'")

/- ================= streamlit_app.py : submit handler ================= -/

/-- What the `if submit_button:` block (`streamlit_app.py`, lines 91-104)
does: `if not variables_nasa: st.warning(...)` else it calls
`obtener_datos_nasa` with the form's coordinates, dates and variables. -/
inductive NasaAction where
  | warnNoVariables
  | callFetch
  deriving DecidableEq

/-- Shallow embedding of the `submit_button` handler's validation. The form's
start and end dates are in scope but never compared: the only check is that
the variable selection is non-empty. -/
def submit_button_handler (start_date end_date : Int)
    (variable_list : List String) : NasaAction :=
  if variable_list = [] then .warnNoVariables else .callFetch

/- ============ components modelled from the design document ============ -/

/-- Modelled from the spec: the Range Resolver (spec §4.1) is described in
the design document but absent from the source files. Timestamps and the
current time are time units (`Nat`). Empty cache → window
`[epochDefault, now]`; non-empty cache → window `[max timestamp + 1, now]`;
a window whose start exceeds its end signals "nothing to do" (`none`). -/
def resolveRange (cacheTs : List ℕ) (now epochDefault : ℕ) :
    Option (ℕ × ℕ) :=
  match cacheTs.max? with
  | Option.none => if epochDefault ≤ now then some (epochDefault, now) else none
  | Option.some t => if t + 1 ≤ now then some (t + 1, now) else none

/-- Modelled from the spec: collapse exact-duplicate timestamps keeping the
first occurrence (spec §4.2 merge step; absent from the source files). Rows
are (timestamp, payload) pairs; `seen` accumulates timestamps already kept. -/
def dedupKeepFirst (seen : List ℕ) : List (ℕ × ℚ) → List (ℕ × ℚ)
  | [] => []
  | r :: rs =>
      if r.1 ∈ seen then dedupKeepFirst seen rs
      else r :: dedupKeepFirst (r.1 :: seen) rs

/-- Modelled from the spec: the merge of fetched rows into the cache (spec
§4.2; absent from the source files) — concatenate the new rows after the
existing cache, then collapse exact-duplicate timestamps keeping the first
occurrence. -/
def mergeCache (cache newRows : List (ℕ × ℚ)) : List (ℕ × ℚ) :=
  dedupKeepFirst [] (cache ++ newRows)

/-- The eight compass labels in circle order starting north. -/
def compass_points : List String :=
  ["N", "NE", "E", "SE", "S", "SW", "W", "NW"]

/-- Modelled from the spec: `deg_to_cardinal` (spec §4.3) is described in the
design document but absent from the source files. The degree input (a
rational, standing for any real) is shifted by `+22.5`, integer-divided by
`45`, and the result taken modulo `8` to index the compass labels. -/
def deg_to_cardinal (d : ℚ) : String :=
  compass_points.getD ((⌊(d + 45 / 2) / 45⌋ % 8).toNat) "N"

/- ======================= claim C1 ======================= -/

/-- A trivial HTTP oracle used for concrete evaluations. -/
def emptyOracle : Int → Int → HttpOutcome := fun _ _ => .ok ⟨[]⟩

/-- C1 counterexample: for a 40-day window (days 0 through 39),
`get_wind_data_real` does not issue 2 sub-window requests — it issues
exactly one request, for the whole window. -/
theorem C1_counterexample :
    ¬ (get_wind_data_real 0 39 emptyOracle).requests.length = 2 := by
  decide

/-- C1 (amended): `get_wind_data_real` always issues exactly one upstream
request, whose window is the full input window `[start_date, end_date]`; the
window is never split at a 30-day cap, whatever its length. -/
theorem C1_single_request (s e : Int) (respond : Int → Int → HttpOutcome) :
    (get_wind_data_real s e respond).requests = [(s, e)] := by
  unfold get_wind_data_real
  cases respond s e <;> dsimp only <;> try rfl
  split
  · rfl
  · split <;> rfl

/- ======================= claim C8 ======================= -/

/-- C8: when the response parses but contains no day records at all,
`get_wind_data_real` emits exactly one warning (not an error) and returns an
empty DataFrame. -/
theorem C8_no_days_is_warning (s e : Int) (respond : Int → Int → HttpOutcome)
    (data : ApiData) (hr : respond s e = .ok data) (hd : data.days = []) :
    (get_wind_data_real s e respond).messages =
      [.warningMsg
        ("La API no devolvió datos para esta ubicación o rango. " ++
         "Revisa la ubicación o el periodo.")] ∧
    (get_wind_data_real s e respond).result = .value emptyDF := by
  unfold get_wind_data_real
  rw [hr]
  simp [hd]

/-- C8 witness: the theorem applied to the oracle that answers with an empty
`days` array. -/
theorem C8_witness :
    (get_wind_data_real 0 39 emptyOracle).result = .value emptyDF :=
  (C8_no_days_is_warning 0 39 emptyOracle ⟨[]⟩ rfl rfl).2

/- ======================= claim C10 ======================= -/

/-- C10: `get_wind_data_real` never returns `None`, and on each handled
failure path — non-2xx HTTP status, any other caught exception, or a
response with no day records — it returns the empty DataFrame. -/
theorem C10_never_none (s e : Int) (respond : Int → Int → HttpOutcome) :
    (get_wind_data_real s e respond).result ≠ .none ∧
    (∀ body, respond s e = .httpError body →
      (get_wind_data_real s e respond).result = .value emptyDF) ∧
    (∀ msg, respond s e = .raisedOther msg →
      (get_wind_data_real s e respond).result = .value emptyDF) ∧
    (∀ data, respond s e = .ok data → data.days = [] →
      (get_wind_data_real s e respond).result = .value emptyDF) := by
  unfold get_wind_data_real
  refine ⟨?_, ?_, ?_, ?_⟩
  · cases respond s e <;> dsimp only
    · split
      · simp
      · split <;> simp
    · simp
    · simp
  · intro body hb; rw [hb]
  · intro msg hm; rw [hm]
  · intro data hd hdays; rw [hd]; simp [hdays]

/-- C10 witness: on a non-2xx response the result is the empty DataFrame. -/
theorem C10_witness :
    (get_wind_data_real 0 0 (fun _ _ => .httpError "Bad API key")).result =
      .value emptyDF :=
  (C10_never_none 0 0 (fun _ _ => .httpError "Bad API key")).2.1
    "Bad API key" rfl

/- ======================= claim C9 ======================= -/

/-- C9 counterexample: in the NASA dashboard, a submission whose start date
(2024-02-01) is after its end date (2024-01-01) and whose variable selection
is non-empty is not rejected — the handler proceeds to call
`obtener_datos_nasa`. -/
theorem C9_counterexample :
    submit_button_handler 20240201 20240101 ["WS10M"] = .callFetch ∧
    (20240101 : Int) < 20240201 := by
  decide

/-- C9 (amended): in `dashboard_wind.py`, a request with a non-empty location
and start date after end date is rejected with an error before any network
call; in `streamlit_app.py`, a request with an empty variable selection is
rejected with a warning before any network call; but `streamlit_app.py`
never validates the date order — any non-empty selection proceeds to the
fetch call. -/
theorem C9_validations :
    (∀ (loc : String) (s e : Int), loc ≠ "" → s > e →
      fetch_button_handler loc s e = .errorInvalidRange) ∧
    (∀ (s e : Int) (vl : List String), vl = [] →
      submit_button_handler s e vl = .warnNoVariables) ∧
    (∀ (s e : Int) (vl : List String), vl ≠ [] →
      submit_button_handler s e vl = .callFetch) := by
  refine ⟨?_, ?_, ?_⟩
  · intro loc s e hloc hse
    unfold fetch_button_handler
    rw [if_neg hloc, if_pos hse]
  · intro s e vl hvl
    unfold submit_button_handler
    rw [if_pos hvl]
  · intro s e vl hvl
    unfold submit_button_handler
    rw [if_neg hvl]

/-- C9 witness: the dashboard handler rejects an inverted range for a
concrete location. -/
theorem C9_witness :
    fetch_button_handler "Bogota, Colombia" 5 3 = .errorInvalidRange :=
  C9_validations.1 "Bogota, Colombia" 5 3 (by decide) (by decide)

/- ======================= claim C2 ======================= -/

/-- C2: for a non-empty cache with maximum timestamp `T`, the range resolver
outputs the window `[T + 1, now]` whenever that window is non-degenerate
(e.g. a refresh run strictly after `T`), and every window it ever outputs
starts strictly after `T`, so the row at `T` is never re-fetched. -/
theorem C2_start_after_max (ts : List ℕ) (now T ed : ℕ)
    (hmax : ts.max? = some T) :
    (T + 1 ≤ now → resolveRange ts now ed = some (T + 1, now)) ∧
    (∀ s e, resolveRange ts now ed = some (s, e) → T < s) := by
  constructor
  · intro hnow
    simp [resolveRange, hmax, hnow]
  · intro s e hr
    simp only [resolveRange, hmax] at hr
    split at hr
    · simp only [Option.some.injEq, Prod.mk.injEq] at hr
      omega
    · exact absurd hr (by simp)

/-- C2 witness: a cache ending at timestamp 7 refreshed at time 12
(five units later) yields the window starting at 8, strictly after 7. -/
theorem C2_witness :
    resolveRange [1, 2, 7] 12 0 = some (8, 12) :=
  (C2_start_after_max [1, 2, 7] 12 7 0 (by decide)).1 (by decide)

/- ======================= claim C5 ======================= -/

/-- A sample parsed response: one day with one complete hour record. -/
def sampleData : ApiData :=
  ⟨[⟨"2024-01-01",
     [⟨"00:00:00", some 10, some 90, Option.none, Option.none, Option.none,
       Option.none, Option.none⟩]⟩]⟩

/-- C5 counterexample: a successful fetch returns a non-empty DataFrame whose
column set is exactly `columns_of_interest`, which contains no
`cardinal_direction` column — no cardinal direction is ever derived. -/
theorem C5_counterexample :
    (get_wind_data_real 0 0 (fun _ _ => .ok sampleData)).result =
      .value { columns := columns_of_interest
               rows := [⟨"2024-01-01 00:00:00", some 10, some 90, Option.none,
                         Option.none, Option.none, Option.none,
                         Option.none⟩] } ∧
    "cardinal_direction" ∉ columns_of_interest := by
  constructor
  · rfl
  · decide

/-- Case analysis on one `get_wind_data_real` call: either the returned value
is the empty DataFrame, or the response parsed with day records and hour
entries and the returned DataFrame has columns `columns_of_interest` and the
filtered flattened rows. -/
theorem get_wind_result_cases (s e : Int)
    (respond : Int → Int → HttpOutcome) :
    (get_wind_data_real s e respond).result = .value emptyDF ∨
    ∃ data, respond s e = .ok data ∧ ¬ data.days = [] ∧
      ¬ flattenHours data = [] ∧
      (get_wind_data_real s e respond).result =
        .value { columns := columns_of_interest
                 rows := (flattenHours data).filter keepRow } := by
  unfold get_wind_data_real
  rcases hresp : respond s e with data | body | msg
  · by_cases hd : data.days = []
    · left
      simp [hd]
    · by_cases hf : flattenHours data = []
      · left
        simp [hd, hf]
      · right
        exact ⟨data, rfl, hd, hf, by simp [hd, hf]⟩
  · left
    rfl
  · left
    rfl

/-- C5 (amended): every non-empty DataFrame returned by `get_wind_data_real`
has columns exactly `columns_of_interest` — the timestamp and the renamed
source fields — and in particular carries no derived `cardinal_direction`
column (nor is any cache file ever written). -/
theorem C5_result_columns (s e : Int) (respond : Int → Int → HttpOutcome)
    (df : DataFrame)
    (hv : (get_wind_data_real s e respond).result = .value df)
    (hne : df.rows ≠ []) :
    df.columns = columns_of_interest ∧
    "cardinal_direction" ∉ df.columns := by
  have hcols : df.columns = columns_of_interest := by
    rcases get_wind_result_cases s e respond with h | ⟨data, -, -, -, h⟩
    · rw [h] at hv
      have hdf : emptyDF = df := by
        injection hv
      rw [← hdf] at hne
      exact absurd rfl hne
    · rw [h] at hv
      have hdf : ({ columns := columns_of_interest
                    rows := (flattenHours data).filter keepRow } : DataFrame)
                   = df := by
        injection hv
      rw [← hdf]
  refine ⟨hcols, ?_⟩
  rw [hcols]
  decide

/-- C5 witness: the amended theorem applied to the sample fetch. -/
theorem C5_witness :
    ((get_wind_data_real 0 0 (fun _ _ => .ok sampleData)).result =
        .value { columns := columns_of_interest
                 rows := [⟨"2024-01-01 00:00:00", some 10, some 90,
                           Option.none, Option.none, Option.none, Option.none,
                           Option.none⟩] }) ∧
    "cardinal_direction" ∉ columns_of_interest :=
  ⟨rfl,
   (C5_result_columns 0 0 (fun _ _ => .ok sampleData) _ rfl
      (by decide)).2⟩

/- ======================= claim C7 ======================= -/

/-- C7: on a successfully parsed response with day records and at least one
hour entry, the returned rows are exactly the flattened per-hour records
surviving the speed/direction filter: one flattened record per hour entry
across all days, a record is kept exactly when both `wind_speed_kmh` and
`wind_direction_deg` are present, and records missing only the optional
fields are retained. -/
theorem C7_flatten_and_drop (s e : Int) (respond : Int → Int → HttpOutcome)
    (data : ApiData) (hr : respond s e = .ok data) (hd : ¬ data.days = [])
    (hf : ¬ flattenHours data = []) :
    (get_wind_data_real s e respond).result =
      .value { columns := columns_of_interest
               rows := (flattenHours data).filter keepRow } ∧
    (flattenHours data).length =
      (data.days.map fun day => day.hours.length).sum ∧
    (∀ r ∈ flattenHours data,
      (r ∈ (flattenHours data).filter keepRow ↔
        r.wind_speed_kmh.isSome = true ∧
          r.wind_direction_deg.isSome = true)) := by
  refine ⟨?_, ?_, ?_⟩
  · rcases get_wind_result_cases s e respond with h | ⟨data2, hr2, -, -, h⟩
    · exfalso
      unfold get_wind_data_real at h
      rw [hr] at h
      simp [hd, hf, emptyDF, columns_of_interest] at h
    · rw [hr] at hr2
      cases hr2
      exact h
  · simp [flattenHours, Function.comp_def]
  · intro r hmem
    rw [List.mem_filter]
    simp [hmem, keepRow]

/-- A sample parsed response with two hour entries, the second missing its
wind direction (and both missing various optional fields). -/
def sampleDataMixed : ApiData :=
  ⟨[⟨"2024-01-01",
     [⟨"00:00:00", some 10, some 90, Option.none, some 1013, Option.none,
       Option.none, Option.none⟩,
      ⟨"01:00:00", some 12, Option.none, some 20, Option.none, Option.none,
       Option.none, Option.none⟩]⟩]⟩

/-- C7 witness: the theorem applied to the mixed sample; the record missing
its direction is dropped, the one missing only optional fields is kept. -/
theorem C7_witness :
    (get_wind_data_real 0 0 (fun _ _ => .ok sampleDataMixed)).result =
      .value { columns := columns_of_interest
               rows := (flattenHours sampleDataMixed).filter keepRow } :=
  (C7_flatten_and_drop 0 0 (fun _ _ => .ok sampleDataMixed) sampleDataMixed
    rfl (by decide) (by decide)).1

/- ======================= claim C6 ======================= -/

/-- Evaluation helper for `deg_to_cardinal`: once the floor of the shifted,
scaled degree is pinned down by the two bounds, the compass label is a list
lookup at a concrete index. -/
theorem deg_to_cardinal_eval (d : ℚ) (n : ℤ)
    (h1 : (n : ℚ) ≤ (d + 45 / 2) / 45) (h2 : (d + 45 / 2) / 45 < n + 1) :
    deg_to_cardinal d = compass_points.getD ((n % 8).toNat) "N" := by
  unfold deg_to_cardinal
  rw [Int.floor_eq_iff.mpr ⟨h1, h2⟩]

/-- C6: `deg_to_cardinal` is total on rational degrees (so in particular on
negative and on above-360 inputs), is invariant under adding any whole number
of turns — i.e. it depends on its argument only modulo 360 — always lands in
the 8 compass points, and takes the specified values at 0, 90, 180, 270,
22.4 and 22.6 (45-degree sectors with boundaries at 22.5-degree offsets). -/
theorem C6_deg_to_cardinal :
    (∀ (d : ℚ) (k : ℤ), deg_to_cardinal (d + 360 * k) = deg_to_cardinal d) ∧
    (∀ d : ℚ, deg_to_cardinal d ∈ compass_points) ∧
    deg_to_cardinal 0 = "N" ∧ deg_to_cardinal 90 = "E" ∧
    deg_to_cardinal 180 = "S" ∧ deg_to_cardinal 270 = "W" ∧
    deg_to_cardinal 22.4 = "N" ∧ deg_to_cardinal 22.6 = "NE" := by
  refine ⟨?_, ?_,
    (deg_to_cardinal_eval 0 0 (by norm_num) (by norm_num)).trans (by decide),
    (deg_to_cardinal_eval 90 2 (by norm_num) (by norm_num)).trans (by decide),
    (deg_to_cardinal_eval 180 4 (by norm_num) (by norm_num)).trans (by decide),
    (deg_to_cardinal_eval 270 6 (by norm_num) (by norm_num)).trans (by decide),
    (deg_to_cardinal_eval 22.4 0 (by norm_num) (by norm_num)).trans
      (by decide),
    (deg_to_cardinal_eval 22.6 1 (by norm_num) (by norm_num)).trans
      (by decide)⟩
  · intro d k
    unfold deg_to_cardinal
    have harg : (d + 360 * k + 45 / 2) / 45 = (d + 45 / 2) / 45 + (8 * k : ℤ) := by
      push_cast
      ring
    rw [harg, Int.floor_add_int, Int.add_mul_emod_self_left]
  · intro d
    unfold deg_to_cardinal
    have h8 : ((⌊(d + 45 / 2) / 45⌋ % 8).toNat) < 8 := by
      have h0 : (0 : ℤ) ≤ ⌊(d + 45 / 2) / 45⌋ % 8 :=
        Int.emod_nonneg _ (by norm_num)
      have hlt : ⌊(d + 45 / 2) / 45⌋ % 8 < 8 :=
        Int.emod_lt_of_pos _ (by norm_num)
      omega
    rw [List.getD_eq_getElem _ _ (by simpa [compass_points] using h8)]
    exact List.getElem_mem _

/- ======================= claim C4 ======================= -/

/-- C4: contrary to the no-escape policy, `obtener_datos_nasa` raises on
every call: line 61 evaluates `pd.io.json.build_url_query(params)` outside
the `try` block, and `pandas.io.json` has no attribute `build_url_query`, so
an `AttributeError` propagates out of the function before any of its
`except` clauses can apply. (`get_wind_data_real` by contrast returns on
every path — see the `FetchTrace` embedding.) -/
theorem C4_nasa_always_raises :
    (∀ (lat lon : ℚ) (ss es : String) (vl : List String) (r : NasaHttp),
      obtener_datos_nasa lat lon ss es vl r =
        .raised ("AttributeError: module 'pandas.io.json' has no attribute " ++
          "'build_url_query'")) ∧
    obtener_datos_nasa 19.43 (-99.13) "20240101" "20240131"
        ["WS10M", "WD10M"] (.ok ⟨Option.none⟩) =
      .raised ("AttributeError: module 'pandas.io.json' has no attribute " ++
        "'build_url_query'") ∧
    build_url_query_exists = false := by
  refine ⟨?_, by decide, by decide⟩
  intro lat lon ss es vl r
  unfold obtener_datos_nasa
  rw [if_neg (by decide)]

/- ======================= claim C3 ======================= -/

/-- `dedupKeepFirst` only inspects membership in `seen`, so two `seen` lists
with the same members give the same result. -/
theorem dedupKeepFirst_congr (s1 s2 : List ℕ) (l : List (ℕ × ℚ))
    (h : ∀ t, t ∈ s1 ↔ t ∈ s2) :
    dedupKeepFirst s1 l = dedupKeepFirst s2 l := by
  induction l generalizing s1 s2 with
  | nil => rfl
  | cons r rs ih =>
      unfold dedupKeepFirst
      by_cases hr : r.1 ∈ s1
      · rw [if_pos hr, if_pos ((h r.1).mp hr)]
        exact ih s1 s2 h
      · rw [if_neg hr, if_neg (fun hc => hr ((h r.1).mpr hc))]
        rw [ih (r.1 :: s1) (r.1 :: s2) (by intro t; simp [h t])]

/-- Processing a concatenation: the second part is deduplicated with the
first part's timestamps added to the already-seen set. -/
theorem dedupKeepFirst_append (seen : List ℕ) (l1 l2 : List (ℕ × ℚ)) :
    dedupKeepFirst seen (l1 ++ l2) =
      dedupKeepFirst seen l1 ++
        dedupKeepFirst (l1.map Prod.fst ++ seen) l2 := by
  induction l1 generalizing seen with
  | nil => simp [dedupKeepFirst]
  | cons r rs ih =>
      simp only [List.cons_append, dedupKeepFirst, List.map_cons,
        List.append_eq]
      by_cases hr : r.1 ∈ seen
      · rw [if_pos hr, if_pos hr, ih seen]
        congr 1
        apply dedupKeepFirst_congr
        intro t
        simp only [List.cons_append, List.mem_append, List.mem_cons]
        constructor
        · tauto
        · rintro ((rfl | ht) | ht) <;> tauto
      · rw [if_neg hr, if_neg hr, ih (r.1 :: seen), List.cons_append]
        congr 2
        apply dedupKeepFirst_congr
        intro t
        simp only [List.cons_append, List.mem_append, List.mem_cons]
        tauto

/-- On a list whose timestamps are already distinct, deduplication is just
the filter dropping the timestamps seen before. -/
theorem dedupKeepFirst_eq_filter (seen : List ℕ) (l : List (ℕ × ℚ))
    (h : (l.map Prod.fst).Nodup) :
    dedupKeepFirst seen l = l.filter fun r => decide (r.1 ∉ seen) := by
  induction l generalizing seen with
  | nil => rfl
  | cons r rs ih =>
      simp only [List.map_cons, List.nodup_cons] at h
      unfold dedupKeepFirst
      by_cases hr : r.1 ∈ seen
      · rw [if_pos hr, List.filter_cons_of_neg (by simpa using hr)]
        exact ih seen h.2
      · rw [if_neg hr, List.filter_cons_of_pos (by simpa using hr),
          ih (r.1 :: seen) h.2]
        congr 1
        apply List.filter_congr
        intro x hx
        have hxr : ¬ x.1 = r.1 := fun he => h.1 (he ▸ List.mem_map_of_mem Prod.fst hx)
        simp [List.mem_cons, hxr]

/-- When cache and fetched rows each carry distinct timestamps, the merge is
the cache followed by the fetched rows whose timestamps are not already
cached. -/
theorem mergeCache_eq_append_filter (cache newRows : List (ℕ × ℚ))
    (hc : (cache.map Prod.fst).Nodup) (hn : (newRows.map Prod.fst).Nodup) :
    mergeCache cache newRows =
      cache ++
        newRows.filter fun r => decide (r.1 ∉ cache.map Prod.fst) := by
  unfold mergeCache
  rw [dedupKeepFirst_append, dedupKeepFirst_eq_filter [] cache hc,
    dedupKeepFirst_eq_filter _ newRows hn]
  congr 1
  · rw [List.filter_eq_self]
    intro a _
    simp
  · apply List.filter_congr
    intro x _
    simp

/-- C3: merging chronologically fetched rows (each batch internally strictly
increasing, and no fetched timestamp earlier than a cached one) into a
strictly increasing cache yields a cache whose timestamps are again strictly
increasing — hence unique; the result is a sub-sequence of cache-then-new
(nothing is invented), every cached row is retained, every fetched row whose
timestamp is not already cached is retained, and every timestamp present
before the merge is still present after it (duplicates are collapsed to the
first occurrence, which is the cached copy). -/
theorem C3_merge_strictly_increasing (cache newRows : List (ℕ × ℚ))
    (hc : cache.Pairwise fun a b => a.1 < b.1)
    (hn : newRows.Pairwise fun a b => a.1 < b.1)
    (hcn : ∀ a ∈ cache, ∀ b ∈ newRows, a.1 ≤ b.1) :
    (mergeCache cache newRows).Pairwise (fun a b => a.1 < b.1) ∧
    ((mergeCache cache newRows).map Prod.fst).Nodup ∧
    (mergeCache cache newRows).Sublist (cache ++ newRows) ∧
    (∀ r ∈ cache, r ∈ mergeCache cache newRows) ∧
    (∀ r ∈ newRows, r.1 ∉ cache.map Prod.fst →
      r ∈ mergeCache cache newRows) ∧
    (∀ t, t ∈ (cache ++ newRows).map Prod.fst ↔
      t ∈ (mergeCache cache newRows).map Prod.fst) := by
  have hcnd : (cache.map Prod.fst).Nodup := by
    have hpw : (cache.map Prod.fst).Pairwise (· ≠ ·) := by
      rw [List.pairwise_map]
      exact hc.imp fun h => Nat.ne_of_lt h
    exact hpw
  have hnnd : (newRows.map Prod.fst).Nodup := by
    have hpw : (newRows.map Prod.fst).Pairwise (· ≠ ·) := by
      rw [List.pairwise_map]
      exact hn.imp fun h => Nat.ne_of_lt h
    exact hpw
  rw [mergeCache_eq_append_filter cache newRows hcnd hnnd]
  have hpair :
      (cache ++
        newRows.filter fun r => decide (r.1 ∉ cache.map Prod.fst)).Pairwise
        (fun a b => a.1 < b.1) := by
    rw [List.pairwise_append]
    refine ⟨hc, hn.sublist (List.filter_sublist _), ?_⟩
    intro a ha b hb
    rw [List.mem_filter] at hb
    have hle := hcn a ha b hb.1
    have hnotin : b.1 ∉ cache.map Prod.fst := by simpa using hb.2
    have hne : a.1 ≠ b.1 :=
      fun he => hnotin (he ▸ List.mem_map_of_mem Prod.fst ha)
    omega
  refine ⟨hpair, ?_, ?_, ?_, ?_, ?_⟩
  · have hpw :
        ((cache ++
          newRows.filter fun r =>
            decide (r.1 ∉ cache.map Prod.fst)).map Prod.fst).Pairwise
          (· ≠ ·) := by
      rw [List.pairwise_map]
      exact hpair.imp fun h => Nat.ne_of_lt h
    exact hpw
  · exact (List.filter_sublist _).append_left cache
  · intro r hr
    exact List.mem_append_left _ hr
  · intro r hr hfresh
    exact List.mem_append_right _
      (List.mem_filter.mpr ⟨hr, by simpa using hfresh⟩)
  · intro t
    simp only [List.map_append, List.mem_append]
    constructor
    · rintro (ht | ht)
      · exact Or.inl ht
      · by_cases hc2 : t ∈ cache.map Prod.fst
        · exact Or.inl hc2
        · right
          rcases List.mem_map.mp ht with ⟨r, hrmem, rfl⟩
          exact List.mem_map_of_mem Prod.fst
            (List.mem_filter.mpr ⟨hrmem, by simpa using hc2⟩)
    · rintro (ht | ht)
      · exact Or.inl ht
      · right
        rcases List.mem_map.mp ht with ⟨r, hrmem, rfl⟩
        exact List.mem_map_of_mem Prod.fst (List.mem_filter.mp hrmem).1

/-- C3 witness: a cache ending at timestamp 2 merged with a fetch whose first
row duplicates that timestamp — the merged cache is strictly increasing, the
boundary duplicate is collapsed keeping the cached copy, and the genuinely
new row is retained. -/
theorem C3_witness :
    (mergeCache [(1, 5), (2, 7)] [(2, 9), (3, 4)]).Pairwise
      (fun a b => a.1 < b.1) ∧
    mergeCache [(1, 5), (2, 7)] [(2, 9), (3, 4)] = [(1, 5), (2, 7), (3, 4)] :=
  ⟨(C3_merge_strictly_increasing [(1, 5), (2, 7)] [(2, 9), (3, 4)]
      (by decide) (by decide) (by decide)).1,
   by decide⟩
